import Mathlib

/-!
Verification of the secant/tangent visualization widget (App.svelte).

The widget's logic is a collection of pure arithmetic functions over
floating-point numbers; we embed them over ℚ (all claim-relevant inputs and
constants are exact decimals, and the spec states the interesting identities
"in exact arithmetic").  Functions returning SVG point strings are modelled
as returning the underlying list of coordinate pairs, and the color string
`rgb(r,g,b)` as the triple of channel integers.
-/

namespace Sekante

/-- The plotted function f(x) = x² − 2x + 3. -/
def f (x : ℚ) : ℚ := x * x - 2 * x + 3

/-- Its analytic derivative df(x) = 2x − 2 (used only for the tangent). -/
def df (x : ℚ) : ℚ := 2 * x - 2

/-- SVG viewBox width. -/
def VW : ℚ := 600

/-- SVG viewBox height. -/
def VH : ℚ := 400

/-- Padding of the plot area inside the SVG, per side. -/
structure Pad where
  top : ℚ
  right : ℚ
  bottom : ℚ
  left : ℚ

/-- `PAD = { top: 20, right: 20, bottom: 50, left: 55 }`. -/
def PAD : Pad := ⟨20, 20, 50, 55⟩

/-- Mathematical viewport lower x bound. -/
def xMin : ℚ := 0

/-- Mathematical viewport upper x bound. -/
def xMax : ℚ := 4

/-- Mathematical viewport lower y bound. -/
def yMin : ℚ := 0

/-- Mathematical viewport upper y bound. -/
def yMax : ℚ := 9

/-- Plot width in SVG units: `VW - PAD.left - PAD.right`. -/
def plotW : ℚ := VW - PAD.left - PAD.right

/-- Plot height in SVG units: `VH - PAD.top - PAD.bottom`. -/
def plotH : ℚ := VH - PAD.top - PAD.bottom

/-- Mathematical x → SVG pixel x. -/
def toSvgX (x : ℚ) : ℚ := PAD.left + (x - xMin) / (xMax - xMin) * plotW

/-- Mathematical y → SVG pixel y (vertical axis flipped). -/
def toSvgY (y : ℚ) : ℚ := PAD.top + (1 - (y - yMin) / (yMax - yMin)) * plotH

/-- `makeLine(xArr, fn)`: the mapped point sequence behind the SVG
"points" string (one `(toSvgX x, toSvgY (fn x))` pair per input x, in
input order). -/
def makeLine (xArr : List ℚ) (fn : ℚ → ℚ) : List (ℚ × ℚ) :=
  xArr.map (fun x => (toSvgX x, toSvgY (fn x)))

/-- The 300 sample x-values: `xMin + i * (xMax - xMin) / 299` for i = 0..299. -/
def xs : List ℚ :=
  (List.range 300).map (fun (i : ℕ) => xMin + (i : ℚ) * (xMax - xMin) / 299)

/-- Secant slope: the difference quotient `(f(x0 + Δx) - f(x0)) / Δx`. -/
def slope_sek (x0 deltaX : ℚ) : ℚ := (f (x0 + deltaX) - f x0) / deltaX

/-- Tangent slope: the analytic derivative at x0. -/
def slope_tan (x0 : ℚ) : ℚ := df x0

/-- Point sequence of the function graph: `makeLine(xs, f)`. -/
def funcPoints : List (ℚ × ℚ) := makeLine xs f

/-- Point sequence of the secant, drawn over the whole x-range as
`x ↦ f(x0) + slope_sek · (x - x0)`. -/
def sekantePoints (x0 deltaX : ℚ) : List (ℚ × ℚ) :=
  makeLine xs (fun x => f x0 + slope_sek x0 deltaX * (x - x0))

/-- Point sequence of the tangent, drawn over the whole x-range as
`x ↦ f(x0) + slope_tan · (x - x0)`. -/
def tangentePoints (x0 : ℚ) : List (ℚ × ℚ) :=
  makeLine xs (fun x => f x0 + slope_tan x0 * (x - x0))

/-- First secant endpoint marker `(toSvgX x0, toSvgY (f x0))`. -/
def px0 (x0 : ℚ) : ℚ × ℚ := (toSvgX x0, toSvgY (f x0))

/-- Second secant endpoint marker `(toSvgX (x0+Δx), toSvgY (f (x0+Δx)))`. -/
def px1 (x0 deltaX : ℚ) : ℚ × ℚ := (toSvgX (x0 + deltaX), toSvgY (f (x0 + deltaX)))

/-- `+v.toFixed(6)`: round to 6 decimal places. -/
def roundTo6 (v : ℚ) : ℚ := (round (v * 1000000) : ℚ) / 1000000

/-- Loop body of `ticks`, with explicit fuel for termination; the JS loop
`for (let v = min; v <= max + 1e-9; v += step)` pushes `+v.toFixed(6)`. -/
def ticksAux (mx step : ℚ) : ℕ → ℚ → List ℚ
  | 0, _ => []
  | fuel + 1, v =>
    if v ≤ mx + 1 / 1000000000 then roundTo6 v :: ticksAux mx step fuel (v + step)
    else []

/-- `ticks(min, max, step)`: tick values from min to max inclusive with an
epsilon of 1e-9, each rounded to 6 decimals.  Fuel bounds the number of loop
iterations the JS loop performs for a positive step. -/
def ticks (mn mx step : ℚ) : List ℚ :=
  ticksAux mx step ((Int.ceil ((mx + 1 / 1000000000 - mn) / step)).toNat + 1) mn

/-- `interpolateColor(t)`: the (r, g, b) channel triple behind the returned
`rgb(r,g,b)` string; each channel linearly interpolated and rounded with
`Math.round` (round half toward +∞, as `round` on ℚ). -/
def interpolateColor (t : ℚ) : ℤ × ℤ × ℤ :=
  (round (0x27 + t * (0xc0 - 0x27)),
   round (0xae + t * (0x39 - 0xae)),
   round (0x60 + t * (0x2b - 0x60)))

/-- `errorRatio = min(1, |slope_sek - slope_tan| / 3)`. -/
def errorRatio (x0 deltaX : ℚ) : ℚ :=
  min 1 (|slope_sek x0 deltaX - slope_tan x0| / 3)

/-- `errorColor = interpolateColor(errorRatio)`. -/
def errorColor (x0 deltaX : ℚ) : ℤ × ℤ × ℤ :=
  interpolateColor ( errorRatio x0 deltaX)

/-- Slider minimum Δx. -/
def DX_MIN : ℚ := 0.01

/-- Slider maximum Δx. -/
def DX_MAX : ℚ := 2.0

/-- Slider step. -/
def DX_STEP : ℚ := 0.01

/-- Initial Δx value. -/
def deltaX_init : ℚ := 1.5

/-- The fixed evaluation point x0. -/
def x0_init : ℚ := 2.0

/-- The preset button values `[2.0, 1.0, 0.5, 0.1, 0.01]`. -/
def presetValues : List ℚ := [2.0, 1.0, 0.5, 0.1, 0.01]

/-- `class:active={Math.abs(deltaX - preset) < 0.005}` on a preset button. -/
def presetActive (deltaX p : ℚ) : Bool := decide (|deltaX - p| < 0.005)

/-- The widget's mutable state: the Δx slider value and the (fixed) x0. -/
structure WidgetState where
  deltaX : ℚ
  x0 : ℚ

/-- The "set Δx" transition (slider drag or preset click): assigns deltaX,
leaves x0 alone. -/
def setDeltaX (s : WidgetState) (v : ℚ) : WidgetState := ⟨v, s.x0⟩

/-- States reachable through the UI: the initial state, slider assignments
(min 0.01, step 0.01, capped at max 2.0) and preset clicks. -/
inductive Reachable : WidgetState → Prop
  | init : Reachable ⟨deltaX_init, x0_init⟩
  | slider (s : WidgetState) (k : ℕ) (v : ℚ) :
      Reachable s → v = DX_MIN + k * DX_STEP → v ≤ DX_MAX →
      Reachable (setDeltaX s v)
  | preset (s : WidgetState) (p : ℚ) :
      Reachable s → p ∈ presetValues → Reachable (setDeltaX s p)

/-- All reactive derived quantities of the widget, bundled. -/
structure Derived where
  slope_sek : ℚ
  slope_tan : ℚ
  errorVal : ℚ
  errorColor : ℤ × ℤ × ℤ
  funcPoints : List (ℚ × ℚ)
  sekantePoints : List (ℚ × ℚ)
  tangentePoints : List (ℚ × ℚ)
  px0 : ℚ × ℚ
  px1 : ℚ × ℚ

/-- The reactive `$:` recomputation: every derived quantity as a function of
the current state. -/
def derived (s : WidgetState) : Derived :=
  ⟨slope_sek s.x0 s.deltaX,
   slope_tan s.x0,
   |slope_sek s.x0 s.deltaX - slope_tan s.x0|,
   errorColor s.x0 s.deltaX,
   funcPoints,
   sekantePoints s.x0 s.deltaX,
   tangentePoints s.x0,
   px0 s.x0,
   px1 s.x0 s.deltaX⟩

/-- A rational rounds to n when n ≤ q + 1/2 < n + 1 (Math.round semantics). -/
lemma round_concrete (q : ℚ) (n : ℤ) (h1 : (n : ℚ) ≤ q + 1 / 2)
    (h2 : q + 1 / 2 < n + 1) : round q = n := by
  rw [round_eq]
  rw [Int.floor_eq_iff]
  exact ⟨h1, by linarith⟩

/-- Rounding is monotone. -/
lemma round_mono_q {a b : ℚ} (h : a ≤ b) : round a ≤ round b := by
  rw [round_eq, round_eq]
  exact Int.floor_le_floor (by linarith)

/-- One iteration of the ticks loop while the guard holds. -/
lemma ticksAux_step (mx step v : ℚ) (fuel : ℕ) (h : v ≤ mx + 1 / 1000000000) :
    ticksAux mx step (fuel + 1) v
      = roundTo6 v :: ticksAux mx step fuel (v + step) := by
  rw [ticksAux, if_pos h]

/-- The ticks loop terminates once the guard fails. -/
lemma ticksAux_stop (mx step v : ℚ) (fuel : ℕ)
    (h : ¬ v ≤ mx + 1 / 1000000000) : ticksAux mx step (fuel + 1) v = [] := by
  rw [ticksAux, if_neg h]

/-- Closed form of the difference quotient of f at x0 = 2. -/
lemma slope_sek_two (d : ℚ) (hd : d ≠ 0) : slope_sek 2 d = 2 + d := by
  unfold slope_sek f
  field_simp
  ring

/-- Claim C1: for f(x) = x² − 2x + 3 at x₀ = 2 the tangent slope is 2, the
secant slope is exactly 2 + Δx, the approximation error equals Δx and is
strictly monotone in Δx (hence converges monotonically to 0 as Δx → 0⁺);
at Δx = 1 the secant slope is 3 with error 1, at Δx = 0.01 it is 2.01 with
error 0.01. -/
theorem C1_secant_error_convergence (deltaX : ℚ) (hpos : 0 < deltaX)
    (hle : deltaX ≤ 2) :
    slope_tan 2 = 2 ∧
    slope_sek 2 deltaX = 2 + deltaX ∧
    |slope_sek 2 deltaX - slope_tan 2| = deltaX ∧
    (∀ d : ℚ, 0 < d → d < deltaX →
      |slope_sek 2 d - slope_tan 2| < |slope_sek 2 deltaX - slope_tan 2|) ∧
    slope_sek 2 1 = 3 ∧ |slope_sek 2 1 - slope_tan 2| = 1 ∧
    slope_sek 2 0.01 = 2.01 ∧ |slope_sek 2 0.01 - slope_tan 2| = 0.01 := by
  have htan : slope_tan 2 = 2 := by norm_num [slope_tan, df]
  have herr : ∀ d : ℚ, 0 < d → |slope_sek 2 d - slope_tan 2| = d := by
    intro d hd
    rw [slope_sek_two d hd.ne', htan]
    simpa using abs_of_pos hd
  refine ⟨htan, slope_sek_two deltaX hpos.ne', herr deltaX hpos, ?_, ?_, ?_, ?_, ?_⟩
  · intro d hd hlt
    rw [herr d hd, herr deltaX hpos]
    exact hlt
  · rw [slope_sek_two 1 one_ne_zero]; norm_num
  · simpa using herr 1 one_pos
  · rw [slope_sek_two 0.01 (by norm_num)]; norm_num
  · rw [herr 0.01 (by norm_num)]

/-- Witness for C1 at Δx = 1. -/
theorem C1_secant_error_convergence_witness :
    slope_tan 2 = 2 ∧ slope_sek 2 1 = 3 ∧ |slope_sek 2 1 - slope_tan 2| = 1 := by
  have h := C1_secant_error_convergence 1 (by norm_num) (by norm_num)
  exact ⟨h.1, h.2.2.2.2.1, h.2.2.2.2.2.1⟩

/-- Claim C2: for every Δx in [0.01, 2.0] the secant-slope computation is a
genuine division (Δx ≠ 0, and multiplying back recovers the numerator
f(x₀+Δx) − f(x₀)); its value is the finite rational 2 + Δx. -/
theorem C2_secant_slope_total (deltaX : ℚ) (h1 : 0.01 ≤ deltaX)
    (h2 : deltaX ≤ 2) :
    deltaX ≠ 0 ∧
    slope_sek 2 deltaX * deltaX = f (2 + deltaX) - f 2 ∧
    slope_sek 2 deltaX = 2 + deltaX := by
  have hne : deltaX ≠ 0 := by
    intro h
    rw [h] at h1
    norm_num at h1
  exact ⟨hne, div_mul_cancel₀ _ hne, slope_sek_two deltaX hne⟩

/-- Witness for C2 at Δx = 0.5. -/
theorem C2_secant_slope_total_witness :
    (0.5 : ℚ) ≠ 0 ∧ slope_sek 2 0.5 = 2 + 0.5 := by
  have h := C2_secant_slope_total 0.5 (by norm_num) (by norm_num)
  exact ⟨h.1, h.2.2⟩

/-- Claim C3: the coordinate mapper is exactly the two affine maps
`toSvgX x = 55 + (x − xMin)/(xMax − xMin) · 525` and
`toSvgY y = 20 + (1 − (y − yMin)/(yMax − yMin)) · 330`; x = 0 maps to 55,
x = 4 to 55 + plotW = 580, y = 0 to top + plotH = 350, y = 9 to top = 20,
and inputs outside the mathematical viewport map outside the plot rectangle
(no clamping). -/
theorem C3_coordinate_mapper :
    (∀ x : ℚ, toSvgX x = 55 + (x - 0) / (4 - 0) * 525) ∧
    (∀ y : ℚ, toSvgY y = 20 + (1 - (y - 0) / (9 - 0)) * 330) ∧
    toSvgX 0 = 55 ∧
    toSvgX 4 = 55 + plotW ∧ plotW = 525 ∧
    toSvgY 0 = PAD.top + plotH ∧ plotH = 330 ∧
    toSvgY 9 = 20 ∧
    (∀ x : ℚ, x < xMin → toSvgX x < PAD.left) ∧
    (∀ x : ℚ, xMax < x → PAD.left + plotW < toSvgX x) ∧
    (∀ y : ℚ, y < yMin → PAD.top + plotH < toSvgY y) ∧
    (∀ y : ℚ, yMax < y → toSvgY y < PAD.top) := by
  have hX : ∀ x : ℚ, toSvgX x = 55 + (x - 0) / (4 - 0) * 525 := by
    intro x
    norm_num [toSvgX, PAD, xMin, xMax, plotW, VW]
  have hY : ∀ y : ℚ, toSvgY y = 20 + (1 - (y - 0) / (9 - 0)) * 330 := by
    intro y
    norm_num [toSvgY, PAD, yMin, yMax, plotH, VH]
  have hW : plotW = 525 := by norm_num [plotW, VW, PAD]
  have hH : plotH = 330 := by norm_num [plotH, VH, PAD]
  have hL : PAD.left = 55 := by norm_num [PAD]
  have hT : PAD.top = 20 := by norm_num [PAD]
  refine ⟨hX, hY, ?_, ?_, hW, ?_, hH, ?_, ?_, ?_, ?_, ?_⟩
  · rw [hX]; norm_num
  · rw [hX, hW]; norm_num
  · rw [hY, hT, hH]; norm_num
  · rw [hY]; norm_num
  · intro x hx
    rw [hX, hL]
    rw [xMin] at hx
    nlinarith
  · intro x hx
    rw [hX, hL, hW]
    rw [xMax] at hx
    nlinarith
  · intro y hy
    rw [hY, hT, hH]
    rw [yMin] at hy
    nlinarith
  · intro y hy
    rw [hY, hT]
    rw [yMax] at hy
    nlinarith

/-- Witness for C3: concrete out-of-viewport inputs map outside the plot
rectangle. -/
theorem C3_coordinate_mapper_witness :
    toSvgX (-1) < PAD.left ∧ PAD.left + plotW < toSvgX 5 ∧
    PAD.top + plotH < toSvgY (-1) ∧ toSvgY 10 < PAD.top := by
  have h := C3_coordinate_mapper
  refine ⟨?_, ?_, ?_, ?_⟩
  · exact h.2.2.2.2.2.2.2.2.1 (-1) (by norm_num [xMin])
  · exact h.2.2.2.2.2.2.2.2.2.1 5 (by norm_num [xMax])
  · exact h.2.2.2.2.2.2.2.2.2.2.1 (-1) (by norm_num [yMin])
  · exact h.2.2.2.2.2.2.2.2.2.2.2 10 (by norm_num [yMax])

/-- Claim C4: the sampler's 300 x-values are xᵢ = xMin + i·(xMax − xMin)/299
for i = 0..299, including both endpoints 0 and 4; `makeLine` maps them (or
any supplied function's values) to (toSvgX xᵢ, toSvgY (g xᵢ)) pairs in input
order; the secant and tangent point sequences sample
`x ↦ f(x₀) + slope · (x − x₀)` over this entire range. -/
theorem C4_curve_sampler :
    xs.length = 300 ∧
    (∀ i : Fin xs.length, xs.get i = xMin + (i.val : ℚ) * (xMax - xMin) / 299) ∧
    xs[0]? = some 0 ∧
    xs[299]? = some 4 ∧
    (∀ fn : ℚ → ℚ, (makeLine xs fn).length = xs.length) ∧
    (∀ fn : ℚ → ℚ, ∀ i : Fin xs.length,
      (makeLine xs fn)[i.val]? = some (toSvgX (xs.get i), toSvgY (fn (xs.get i)))) ∧
    (∀ x0 deltaX : ℚ, sekantePoints x0 deltaX
        = makeLine xs (fun x => f x0 + slope_sek x0 deltaX * (x - x0))) ∧
    (∀ x0 : ℚ, tangentePoints x0
        = makeLine xs (fun x => f x0 + slope_tan x0 * (x - x0))) := by
  have hlen : xs.length = 300 := by
    simp only [xs, List.length_map, List.length_range]
  have hget : ∀ i : Fin xs.length,
      xs.get i = xMin + (i.val : ℚ) * (xMax - xMin) / 299 := by
    intro i
    simp only [xs, List.get_eq_getElem, List.getElem_map, List.getElem_range]
  refine ⟨hlen, hget, ?_, ?_, ?_, ?_, fun _ _ => rfl, fun _ => rfl⟩
  · have h0 : (0 : ℕ) < xs.length := by rw [hlen]; norm_num
    rw [List.getElem?_eq_getElem h0]
    have := hget ⟨0, h0⟩
    rw [List.get_eq_getElem] at this
    rw [this]
    norm_num [xMin, xMax]
  · have h299 : (299 : ℕ) < xs.length := by rw [hlen]; norm_num
    rw [List.getElem?_eq_getElem h299]
    have := hget ⟨299, h299⟩
    rw [List.get_eq_getElem] at this
    rw [this]
    norm_num [xMin, xMax]
  · intro fn
    simp only [makeLine, List.length_map]
  · intro fn i
    have hi : i.val < xs.length := i.isLt
    have hi2 : i.val < (makeLine xs fn).length := by
      simpa only [makeLine, List.length_map] using hi
    rw [List.getElem?_eq_getElem hi2]
    simp only [makeLine, List.getElem_map, List.get_eq_getElem]

/-- Witness for C4: sampler facts applied at the concrete function f. -/
theorem C4_curve_sampler_witness :
    xs.length = 300 ∧ (makeLine xs f).length = xs.length := by
  have h := C4_curve_sampler
  exact ⟨h.1, h.2.2.2.2.1 f⟩

/-- Claim C5: the error-to-color mapping computes
ratio = min(1, |secant − tangent|/3) (always in [0,1]) and rounds each
linearly interpolated channel; ratio 0 gives rgb(39,174,96), ratio 1 gives
rgb(192,57,43), and for any ratio in [0,1] every channel is an integer in
[0, 255]. -/
theorem C5_error_color :
    (∀ x0 deltaX : ℚ,
      errorRatio x0 deltaX = min 1 (|slope_sek x0 deltaX - slope_tan x0| / 3)) ∧
    interpolateColor 0 = (39, 174, 96) ∧
    interpolateColor 1 = (192, 57, 43) ∧
    (∀ x0 deltaX : ℚ, 0 ≤ errorRatio x0 deltaX ∧ errorRatio x0 deltaX ≤ 1) ∧
    (∀ t : ℚ, 0 ≤ t → t ≤ 1 →
      0 ≤ (interpolateColor t).1 ∧ (interpolateColor t).1 ≤ 255 ∧
      0 ≤ (interpolateColor t).2.1 ∧ (interpolateColor t).2.1 ≤ 255 ∧
      0 ≤ (interpolateColor t).2.2 ∧ (interpolateColor t).2.2 ≤ 255) := by
  refine ⟨fun _ _ => rfl, ?_, ?_, ?_, ?_⟩
  · norm_num [interpolateColor]
  · norm_num [interpolateColor]
  · intro x0 deltaX
    constructor
    · exact le_min (by norm_num) (by positivity)
    · exact min_le_left _ _
  · intro t ht0 ht1
    have hr0 : round (39 : ℚ) = 39 := by
      apply round_concrete <;> norm_num
    have hr1 : round (192 : ℚ) = 192 := by
      apply round_concrete <;> norm_num
    have hg0 : round (57 : ℚ) = 57 := by
      apply round_concrete <;> norm_num
    have hg1 : round (174 : ℚ) = 174 := by
      apply round_concrete <;> norm_num
    have hb0 : round (43 : ℚ) = 43 := by
      apply round_concrete <;> norm_num
    have hb1 : round (96 : ℚ) = 96 := by
      apply round_concrete <;> norm_num
    have hrL : (39 : ℚ) ≤ 0x27 + t * (0xc0 - 0x27) := by nlinarith
    have hrU : (0x27 : ℚ) + t * (0xc0 - 0x27) ≤ 192 := by nlinarith
    have hgL : (57 : ℚ) ≤ 0xae + t * (0x39 - 0xae) := by nlinarith
    have hgU : (0xae : ℚ) + t * (0x39 - 0xae) ≤ 174 := by nlinarith
    have hbL : (43 : ℚ) ≤ 0x60 + t * (0x2b - 0x60) := by nlinarith
    have hbU : (0x60 : ℚ) + t * (0x2b - 0x60) ≤ 96 := by nlinarith
    refine ⟨?_, ?_, ?_, ?_, ?_, ?_⟩ <;>
      simp only [interpolateColor]
    · have := round_mono_q hrL
      rw [hr0] at this
      omega
    · have := round_mono_q hrU
      rw [hr1] at this
      omega
    · have := round_mono_q hgL
      rw [hg0] at this
      omega
    · have := round_mono_q hgU
      rw [hg1] at this
      omega
    · have := round_mono_q hbL
      rw [hb0] at this
      omega
    · have := round_mono_q hbU
      rw [hb1] at this
      omega

/-- Witness for C5: channel bounds at the concrete ratio t = 1/2. -/
theorem C5_error_color_witness :
    interpolateColor 0 = (39, 174, 96) ∧
    0 ≤ (interpolateColor (1 / 2)).1 ∧ (interpolateColor (1 / 2)).1 ≤ 255 := by
  have h := C5_error_color
  have hb := h.2.2.2.2 (1 / 2) (by norm_num) (by norm_num)
  exact ⟨h.2.1, hb.1, hb.2.1⟩

/-- Claim C6: `ticks(0, 4, 0.5)` yields exactly the nine values
[0, 0.5, 1, 1.5, 2, 2.5, 3, 3.5, 4] and `ticks(0, 9, 1)` yields exactly the
ten values [0, 1, ..., 9], the loop running up to max inclusive with an
epsilon of 1e-9 and 6-decimal rounding. -/
theorem C6_ticks :
    ticks 0 4 0.5 = [0, 0.5, 1, 1.5, 2, 2.5, 3, 3.5, 4] ∧
    (ticks 0 4 0.5).length = 9 ∧
    ticks 0 9 1 = [0, 1, 2, 3, 4, 5, 6, 7, 8, 9] ∧
    (ticks 0 9 1).length = 10 := by
  have h4 : ticks 0 4 0.5 = [0, 0.5, 1, 1.5, 2, 2.5, 3, 3.5, 4] := by
    have hc : (Int.ceil ((4 + 1 / 1000000000 - 0) / 0.5 : ℚ)) = 9 := by
      rw [Int.ceil_eq_iff]
      constructor <;> norm_num
    rw [ticks, hc]
    rw [ticksAux_step _ _ _ _ (by norm_num)]
    rw [show Int.toNat 9 = 8 + 1 from rfl, ticksAux_step _ _ _ _ (by norm_num)]
    rw [show (8 : ℕ) = 7 + 1 from rfl, ticksAux_step _ _ _ _ (by norm_num)]
    rw [show (7 : ℕ) = 6 + 1 from rfl, ticksAux_step _ _ _ _ (by norm_num)]
    rw [show (6 : ℕ) = 5 + 1 from rfl, ticksAux_step _ _ _ _ (by norm_num)]
    rw [show (5 : ℕ) = 4 + 1 from rfl, ticksAux_step _ _ _ _ (by norm_num)]
    rw [show (4 : ℕ) = 3 + 1 from rfl, ticksAux_step _ _ _ _ (by norm_num)]
    rw [show (3 : ℕ) = 2 + 1 from rfl, ticksAux_step _ _ _ _ (by norm_num)]
    rw [show (2 : ℕ) = 1 + 1 from rfl, ticksAux_step _ _ _ _ (by norm_num)]
    rw [show (1 : ℕ) = 0 + 1 from rfl, ticksAux_stop _ _ _ _ (by norm_num)]
    norm_num [roundTo6]
  have h9 : ticks 0 9 1 = [0, 1, 2, 3, 4, 5, 6, 7, 8, 9] := by
    have hc : (Int.ceil ((9 + 1 / 1000000000 - 0) / 1 : ℚ)) = 10 := by
      rw [Int.ceil_eq_iff]
      constructor <;> norm_num
    rw [ticks, hc]
    rw [ticksAux_step _ _ _ _ (by norm_num)]
    rw [show Int.toNat 10 = 9 + 1 from rfl, ticksAux_step _ _ _ _ (by norm_num)]
    rw [show (9 : ℕ) = 8 + 1 from rfl, ticksAux_step _ _ _ _ (by norm_num)]
    rw [show (8 : ℕ) = 7 + 1 from rfl, ticksAux_step _ _ _ _ (by norm_num)]
    rw [show (7 : ℕ) = 6 + 1 from rfl, ticksAux_step _ _ _ _ (by norm_num)]
    rw [show (6 : ℕ) = 5 + 1 from rfl, ticksAux_step _ _ _ _ (by norm_num)]
    rw [show (5 : ℕ) = 4 + 1 from rfl, ticksAux_step _ _ _ _ (by norm_num)]
    rw [show (4 : ℕ) = 3 + 1 from rfl, ticksAux_step _ _ _ _ (by norm_num)]
    rw [show (3 : ℕ) = 2 + 1 from rfl, ticksAux_step _ _ _ _ (by norm_num)]
    rw [show (2 : ℕ) = 1 + 1 from rfl, ticksAux_step _ _ _ _ (by norm_num)]
    rw [show (1 : ℕ) = 0 + 1 from rfl, ticksAux_stop _ _ _ _ (by norm_num)]
    norm_num [roundTo6]
  exact ⟨h4, by rw [h4]; rfl, h9, by rw [h9]; rfl⟩

/-- Claim C7: a preset button with value p is active exactly when
|Δx − p| < 0.005; Δx = 0.499 activates preset 0.5 and Δx = 0.51 does not. -/
theorem C7_preset_active :
    (∀ deltaX p : ℚ, presetActive deltaX p = true ↔ |deltaX - p| < 0.005) ∧
    presetActive 0.499 0.5 = true ∧
    presetActive 0.51 0.5 = false := by
  refine ⟨fun deltaX p => by simp [presetActive], ?_, ?_⟩
  · simp only [presetActive, decide_eq_true_eq]
    rw [show (0.499 : ℚ) - 0.5 = -0.001 by norm_num, abs_neg,
      abs_of_pos (by norm_num : (0 : ℚ) < 0.001)]
    norm_num
  · simp only [presetActive, decide_eq_false_iff_not]
    rw [show (0.51 : ℚ) - 0.5 = 0.01 by norm_num,
      abs_of_pos (by norm_num : (0 : ℚ) < 0.01)]
    norm_num

/-- Claim C8: the initial Δx is 1.5, every preset value lies in
[DX_MIN, DX_MAX] = [0.01, 2.0], and in every state reachable through slider
or preset transitions Δx stays in [0.01, 2.0]. -/
theorem C8_deltaX_bounded :
    deltaX_init = 1.5 ∧
    (∀ p ∈ presetValues, DX_MIN ≤ p ∧ p ≤ DX_MAX) ∧
    (∀ s : WidgetState, Reachable s → DX_MIN ≤ s.deltaX ∧ s.deltaX ≤ DX_MAX) := by
  refine ⟨rfl, ?_, ?_⟩
  · intro p hp
    fin_cases hp <;> constructor <;> norm_num [DX_MIN, DX_MAX]
  · intro s h
    induction h with
    | init =>
      constructor <;> norm_num [deltaX_init, DX_MIN, DX_MAX]
    | slider s k v _ hv hle _ =>
      refine ⟨?_, hle⟩
      show DX_MIN ≤ v
      rw [hv]
      have hk : (0 : ℚ) ≤ (k : ℚ) * DX_STEP :=
        mul_nonneg (by positivity) (by norm_num [DX_STEP])
      linarith
    | preset s p _ hp _ =>
      fin_cases hp <;> constructor <;> norm_num [setDeltaX, DX_MIN, DX_MAX]

/-- Witness for C8: the invariant holds in the initial state, and preset 0.5
lies within the slider bounds. -/
theorem C8_deltaX_bounded_witness :
    (DX_MIN ≤ (WidgetState.mk deltaX_init x0_init).deltaX ∧
      (WidgetState.mk deltaX_init x0_init).deltaX ≤ DX_MAX) ∧
    (DX_MIN ≤ (0.5 : ℚ) ∧ (0.5 : ℚ) ≤ DX_MAX) := by
  have h := C8_deltaX_bounded
  exact ⟨h.2.2 _ Reachable.init, h.2.1 0.5 (by norm_num [presetValues])⟩

/-- Claim C9: applying "set Δx" twice with the same value yields the same
state and the same derived quantities as applying it once, and the derived
state is a pure function of (Δx, x₀) alone. -/
theorem C9_set_deltaX_idempotent (s : WidgetState) (v : ℚ) :
    setDeltaX (setDeltaX s v) v = setDeltaX s v ∧
    derived (setDeltaX (setDeltaX s v) v) = derived (setDeltaX s v) ∧
    derived (setDeltaX s v) = derived (WidgetState.mk v s.x0) :=
  ⟨rfl, rfl, rfl⟩

/-- Claim C10: assigning Δx leaves every Δx-independent derived quantity
unchanged: the function-curve points, the tangent slope, the tangent-line
points and the anchor marker px0 are identical before and after. -/
theorem C10_deltaX_frame (s : WidgetState) (v : ℚ) :
    (derived (setDeltaX s v)).funcPoints = (derived s).funcPoints ∧
    (derived (setDeltaX s v)).slope_tan = (derived s).slope_tan ∧
    (derived (setDeltaX s v)).tangentePoints = (derived s).tangentePoints ∧
    (derived (setDeltaX s v)).px0 = (derived s).px0 :=
  ⟨rfl, rfl, rfl, rfl⟩

end Sekante
